import Mathlib

/-!
Shallow embedding of the `nextgen-kernels-api` kernel-bridge code:
the kernel message cache (`services/kernels/cache.py`), the kernel client
mixin (`services/kernels/client.py`) and the lifecycle state mixin
(`services/kernels/state_mixin.py`), together with theorems checking the
natural-language specification against these definitions.

Python dictionaries are embedded as association lists (`List (String × α)`)
whose order models the insertion order of `dict` / `OrderedDict`: the head
of the list is the oldest (least-recently-used) binding and the last
element is the newest.
-/

namespace NextgenKernels

/-- `d[k]` lookup: first binding whose key equals `k`. -/
def alistLookup {α : Type} : List (String × α) → String → Option α
  | [], _ => none
  | (k', v) :: rest, k => if k' = k then some v else alistLookup rest k

/-- `d[k] = v` on a Python dict / OrderedDict: replace the binding in place
if the key exists (its position is kept), otherwise append at the end. -/
def alistInsert {α : Type} : List (String × α) → String → α → List (String × α)
  | [], k, v => [(k, v)]
  | (k', v') :: rest, k, v =>
      if k' = k then (k, v) :: rest else (k', v') :: alistInsert rest k v

/-- `del d[k]`: drop the binding for `k` (first occurrence); no-op when
absent, which models `del` guarded by a caught `KeyError`. -/
def alistErase {α : Type} : List (String × α) → String → List (String × α)
  | [], _ => []
  | (k', v') :: rest, k =>
      if k' = k then rest else (k', v') :: alistErase rest k

/-- `OrderedDict.move_to_end(k)`: move the binding for `k` to the end
(most-recently-used position).  The source only calls it on keys known to
be present; an absent key leaves the list unchanged. -/
def alistMoveToEnd {α : Type} (l : List (String × α)) (k : String) :
    List (String × α) :=
  match alistLookup l k with
  | some v => alistErase l k ++ [(k, v)]
  | none => l

/-- The keys of an association list, in order. -/
def alistKeys {α : Type} (l : List (String × α)) : List String :=
  l.map Prod.fst

/-! ### Basic association-list lemmas -/

theorem alistLookup_alistInsert_self {α : Type} (l : List (String × α))
    (k : String) (v : α) : alistLookup (alistInsert l k v) k = some v := by
  induction l with
  | nil => simp [alistInsert, alistLookup]
  | cons hd tl ih =>
      by_cases h : hd.1 = k
      · simp [alistInsert, alistLookup, h]
      · simp [alistInsert, alistLookup, h, ih]

theorem alistLookup_alistInsert_ne {α : Type} (l : List (String × α))
    (k k' : String) (v : α) (h : k ≠ k') :
    alistLookup (alistInsert l k v) k' = alistLookup l k' := by
  induction l with
  | nil => simp [alistInsert, alistLookup, h]
  | cons hd tl ih =>
      by_cases hh : hd.1 = k
      · simp [alistInsert, alistLookup, hh, h]
      · simp [alistInsert, alistLookup, hh, ih]

theorem alistLookup_alistErase_ne {α : Type} (l : List (String × α))
    (k k' : String) (h : k ≠ k') :
    alistLookup (alistErase l k) k' = alistLookup l k' := by
  induction l with
  | nil => simp [alistErase]
  | cons hd tl ih =>
      by_cases hh : hd.1 = k
      · have hne : hd.1 ≠ k' := by rw [hh]; exact h
        simp only [alistErase, if_pos hh, alistLookup, if_neg hne]
      · simp only [alistErase, if_neg hh, alistLookup, ih]

theorem alistLookup_eq_none_of_not_mem {α : Type} (l : List (String × α))
    (k : String) (h : k ∉ alistKeys l) : alistLookup l k = none := by
  induction l with
  | nil => rfl
  | cons hd tl ih =>
      simp only [alistKeys, List.map_cons, List.mem_cons, not_or] at h
      have h1 : hd.1 ≠ k := fun hh => h.1 hh.symm
      simp only [alistLookup, if_neg h1]
      exact ih (by simpa [alistKeys] using h.2)

theorem alistLookup_alistErase_self {α : Type} (l : List (String × α))
    (k : String) (hnd : (alistKeys l).Nodup) :
    alistLookup (alistErase l k) k = none := by
  induction l with
  | nil => rfl
  | cons hd tl ih =>
      simp only [alistKeys, List.map_cons, List.nodup_cons] at hnd
      by_cases hh : hd.1 = k
      · simp only [alistErase, if_pos hh]
        exact alistLookup_eq_none_of_not_mem tl k (by rw [← hh]; exact hnd.1)
      · simp only [alistErase, if_neg hh, alistLookup, if_neg hh]
        exact ih hnd.2

/-! ### KernelMessageCache — services/kernels/cache.py -/

/-- A raw value passed to `KernelMessageCache.__setitem__`.  Every field is
optional, modelling a Python dict that may be missing the key.  Throughout
the cache code a `cell_id` key holding `None` behaves exactly like an
absent `cell_id` key (it never matches the secondary index and `del
self._by_cell_id[None]` raises a caught `KeyError`), so both are embedded
as `none`. -/
structure RawMsg where
  msg_id : Option String
  channel : Option String
  cell_id : Option String
deriving Repr, DecidableEq

/-- A stored cache entry: `__setitem__` only stores values that passed its
`msg_id` and `channel` checks, so those fields are present. -/
structure Entry where
  msg_id : String
  channel : String
  cell_id : Option String
deriving Repr, DecidableEq

/-- The exceptions `KernelMessageCache.__setitem__` can raise:
`MissingKeyException` for each absent required key, `InvalidKeyException`
for a key/value mismatch, and an uncaught `KeyError` from
`del self._by_msg_id[existing_msg_id]` when the secondary index is stale. -/
inductive CacheError
  | missingMsgId
  | missingChannel
  | invalidKey
  | keyError
deriving Repr, DecidableEq

/-- Equality of `Except` results is decidable so that concrete cache runs
can be checked by `decide`. -/
instance {ε α : Type} [DecidableEq ε] [DecidableEq α] :
    DecidableEq (Except ε α) := fun x y =>
  match x, y with
  | .ok a, .ok b =>
      if h : a = b then .isTrue (by rw [h])
      else .isFalse (fun hh => h (by injection hh))
  | .error a, .error b =>
      if h : a = b then .isTrue (by rw [h])
      else .isFalse (fun hh => h (by injection hh))
  | .ok _, .error _ => .isFalse (fun hh => Except.noConfusion hh)
  | .error _, .ok _ => .isFalse (fun hh => Except.noConfusion hh)

/-- `KernelMessageCache`: `by_msg_id` embeds the `OrderedDict _by_msg_id`
(head = least-recently-used binding, last = most-recently-used),
`by_cell_id` the secondary dict index, `maxsize` the configured bound. -/
structure KernelMessageCache where
  by_msg_id : List (String × Entry)
  by_cell_id : List (String × Entry)
  maxsize : Nat
deriving Repr, DecidableEq

/-- `_remove_oldest`: pop the least-recently-used binding
(`popitem(last=False)`) and delete its `cell_id` from the secondary index;
both `KeyError`s are caught, so an empty cache or a missing index entry is
a no-op. -/
def KernelMessageCache.removeOldest (c : KernelMessageCache) : KernelMessageCache :=
  match c.by_msg_id with
  | [] => c
  | (_, item) :: rest =>
      { c with
        by_msg_id := rest
        by_cell_id :=
          match item.cell_id with
          | some u => alistErase c.by_cell_id u
          | none => c.by_cell_id }

/-- Lines 81-85 of `__setitem__`: `Remove the existing msg_id if a new msg
with same cell_id exists` — only when the new value's channel is `"shell"`
and its `cell_id` is mapped by the secondary index to a different
`msg_id`; the `del self._by_msg_id[existing_msg_id]` is unguarded, so a
stale index raises `KeyError`. -/
def KernelMessageCache.evictCellCollision (c : KernelMessageCache)
    (msg_id : String) (e : Entry) : Except CacheError KernelMessageCache :=
  if e.channel = "shell" then
    match e.cell_id with
    | some u =>
        match alistLookup c.by_cell_id u with
        | some old =>
            if msg_id ≠ old.msg_id then
              if (alistLookup c.by_msg_id old.msg_id).isSome then
                .ok { c with by_msg_id := alistErase c.by_msg_id old.msg_id }
              else
                .error .keyError
            else .ok c
        | none => .ok c
    | none => .ok c
  else .ok c

/-- Lines 87-92 of `__setitem__`: index the value under its `cell_id` when
that is present and not `None`, store it under `msg_id` in the
`OrderedDict` (an existing key keeps its position), and call
`_remove_oldest` if the size now exceeds `maxsize`. -/
def KernelMessageCache.insertAndTrim (c : KernelMessageCache) (msg_id : String)
    (e : Entry) : KernelMessageCache :=
  let c2 :=
    match e.cell_id with
    | some u => { c with by_cell_id := alistInsert c.by_cell_id u e }
    | none => c
  let c3 := { c2 with by_msg_id := alistInsert c2.by_msg_id msg_id e }
  if c3.maxsize < c3.by_msg_id.length then c3.removeOldest else c3

/-- `__setitem__`: validate the value, evict the old `msg_id` when a new
shell-channel message reuses a `cell_id` mapped to a different `msg_id`
(`evictCellCollision`), then update the secondary index, insert the entry
and evict the least-recently-used entry past `maxsize` (`insertAndTrim`). -/
def KernelMessageCache.setitem (c : KernelMessageCache) (msg_id : String)
    (value : RawMsg) : Except CacheError KernelMessageCache :=
  match value.msg_id with
  | none => .error .missingMsgId
  | some vid =>
    match value.channel with
    | none => .error .missingChannel
    | some ch =>
      if vid ≠ msg_id then .error .invalidKey
      else
        let e : Entry := { msg_id := vid, channel := ch, cell_id := value.cell_id }
        match c.evictCellCollision msg_id e with
        | .error err => .error err
        | .ok c1 => .ok (c1.insertAndTrim msg_id e)

/-- `put` as seen by a caller that keeps its reference to the cache: on a
raised exception the object is exactly as it was before the call (all of
`__setitem__`'s mutations come after its validation checks). -/
def KernelMessageCache.tryPut (c : KernelMessageCache) (msg_id : String)
    (value : RawMsg) : KernelMessageCache × Option CacheError :=
  match c.setitem msg_id value with
  | .ok c1 => (c1, none)
  | .error e => (c, some e)

/-- `add(data)`: insert under `data['msg_id']`; a missing `msg_id` key
raises `KeyError` at the subscript. -/
def KernelMessageCache.add (c : KernelMessageCache) (value : RawMsg) :
    Except CacheError KernelMessageCache :=
  match value.msg_id with
  | some m => c.setitem m value
  | none => .error .keyError

/-- `__getitem__`: return the entry and move it to the most-recently-used
position; `none` embeds the uncaught `KeyError` on a missing id. -/
def KernelMessageCache.getitem (c : KernelMessageCache) (msg_id : String) :
    Option (Entry × KernelMessageCache) :=
  match alistLookup c.by_msg_id msg_id with
  | some out =>
      some (out, { c with by_msg_id := alistMoveToEnd c.by_msg_id msg_id })
  | none => none

/-- `__contains__`. -/
def KernelMessageCache.contains (c : KernelMessageCache) (msg_id : String) :
    Bool :=
  (alistLookup c.by_msg_id msg_id).isSome

/-- The `except KeyError` fallback branch of `get`: look `_by_msg_id` up
with whatever `msg_id` is bound to at that point and promote on a hit;
`None` is returned on a miss. -/
def KernelMessageCache.getByMsgId (c : KernelMessageCache)
    (msg_id : Option String) : Option Entry × KernelMessageCache :=
  match msg_id with
  | some m =>
      match alistLookup c.by_msg_id m with
      | some out =>
          (some out, { c with by_msg_id := alistMoveToEnd c.by_msg_id m })
      | none => (none, c)
  | none => (none, c)

/-- `get(msg_id=..., cell_id=...)`: try the secondary index first and
promote the hit in `_by_msg_id`; any `KeyError` in that branch (absent
`cell_id`, or a `move_to_end` on a cell index whose `msg_id` is no longer
cached — by which point the local `msg_id` has been rebound to that stale
id) falls back to the message-id branch. -/
def KernelMessageCache.get (c : KernelMessageCache)
    (msg_id cell_id : Option String) : Option Entry × KernelMessageCache :=
  match cell_id with
  | some u =>
      match alistLookup c.by_cell_id u with
      | some out =>
          if (alistLookup c.by_msg_id out.msg_id).isSome then
            (some out,
              { c with by_msg_id := alistMoveToEnd c.by_msg_id out.msg_id })
          else
            c.getByMsgId (some out.msg_id)
      | none => c.getByMsgId msg_id
  | none => c.getByMsgId msg_id

/-- The empty cache with a given bound. -/
def KernelMessageCache.empty (maxsize : Nat) : KernelMessageCache :=
  { by_msg_id := [], by_cell_id := [], maxsize := maxsize }

/-! ### JupyterServerKernelClientMixin — services/kernels/client.py -/

/-- A kernel message as the client mixin reads it: the header and metadata
fields it consults, plus the number of raw frames of the wire message
(`msg` is a `list[bytes]` in the source; `handle_incoming_message` checks
`len(msg) == 0` and unpacks `msg[0]` and `msg[2]`). -/
structure Envelope where
  msg_id : String
  msg_type : Option String
  cell_id : Option String
  nframes : Nat
deriving Repr, DecidableEq

/-- The mutable state of `JupyterServerKernelClientMixin`.  Listener
callbacks are identified by opaque names (the source stores bare callables
in a set, with no filter data).  `sent` is an observation log of the
messages forwarded to the kernel through `_send_message`, and
`channels_started` / `listening` record whether `start_channels` /
`start_listening` have run. -/
structure ClientState where
  execution_state : String
  last_activity : Option Nat
  last_shell_status_time : Option Nat
  last_control_status_time : Option Nat
  listeners : List String
  connecting : Bool
  connection_ready : Bool
  connection_ready_event : Bool
  queued_messages : List (String × Envelope)
  max_queue_size : Nat
  message_cache : KernelMessageCache
  channels_started : Bool
  listening : Bool
  sent : List (String × Envelope)
deriving Repr, DecidableEq

/-- The state `__init__` builds: no listeners, not connecting, not ready,
an empty queue bounded at 1000, and an empty message cache with the
traitlets default `maxsize` of 10000. -/
def ClientState.init : ClientState :=
  { execution_state := "unknown"
    last_activity := none
    last_shell_status_time := none
    last_control_status_time := none
    listeners := []
    connecting := false
    connection_ready := false
    connection_ready_event := false
    queued_messages := []
    max_queue_size := 1000
    message_cache := KernelMessageCache.empty 10000
    channels_started := false
    listening := false
    sent := [] }

/-- `add_listener(callback)`: add the bare callback to the `_listeners`
set.  The method accepts no filter arguments. -/
def ClientState.addListener (s : ClientState) (callback : String) : ClientState :=
  if callback ∈ s.listeners then s
  else { s with listeners := s.listeners ++ [callback] }

/-- `_route_to_listeners`: the listeners whose callbacks are invoked for
one message — every registered listener, whatever the message type and
channel name; the routing code consults no filter. -/
def routeToListeners (listeners : List String) (_channel_name : String)
    (_msg_type : String) : List String :=
  listeners

/-- Modelled from the spec: the missing filtered subscription — `A message
matches a subscriber iff (inclusion is unset or pair∈inclusion) and
(exclusion is unset or pair∉exclusion)` over `(message_type, channel)`
pairs.  This is the behaviour the spec, the repository's own tests
(`tests/test_pre_connection_listeners.py`) and the in-repo caller
`KernelClientWebsocketConnection.connect` (which passes `msg_types=` /
`exclude_msg_types=` to `add_listener`) expect, but which
`services/kernels/client.py` does not implement. -/
def specListenerMatches
    (msg_types exclude_msg_types : Option (List (String × String)))
    (pair : String × String) : Bool :=
  (match msg_types with
   | some incl => incl.contains pair
   | none => true) &&
  (match exclude_msg_types with
   | some excl => !(excl.contains pair)
   | none => true)

/-- `_process_queued_messages`: copy the queue, clear it, and forward each
queued message in order through `_send_message` (whose failures are caught
per message and logged). -/
def ClientState.processQueuedMessages (s : ClientState) : ClientState :=
  { s with queued_messages := [], sent := s.sent ++ s.queued_messages }

/-- `mark_connection_ready`: only when the readiness flag is not yet set,
clear `_connecting`, set `_connection_ready`, set the readiness event and
process the queued messages. -/
def ClientState.markConnectionReady (s : ClientState) : ClientState :=
  if s.connection_ready then s
  else
    ClientState.processQueuedMessages
      { s with connecting := false, connection_ready := true,
               connection_ready_event := true }

/-- `_queue_message_if_not_ready`; the `Bool` is the method's return
value.  When the queue is at its bound the source pops the oldest element
before appending; `self._queued_messages.pop(0)` on an empty list would
raise `IndexError` (possible only when the bound is zero), embedded as
`none`. -/
def ClientState.queueMessageIfNotReady (s : ClientState)
    (channel_name : String) (msg : Envelope) : Option (ClientState × Bool) :=
  if s.connection_ready then some (s, false)
  else if s.queued_messages.length < s.max_queue_size then
    some ({ s with queued_messages := s.queued_messages ++ [(channel_name, msg)] },
          true)
  else
    match s.queued_messages with
    | [] => none
    | _ :: rest =>
        some ({ s with queued_messages := rest ++ [(channel_name, msg)] }, true)

/-- `_send_message`: forward the frames to the named kernel channel; every
exception is caught and logged, so the call always completes.  The log of
forwarded messages is the observable effect. -/
def ClientState.sendMessage (s : ClientState) (channel_name : String)
    (msg : Envelope) : ClientState :=
  { s with sent := s.sent ++ [(channel_name, msg)] }

/-- `handle_incoming_message`: return early on an empty frame list; cache
the header information (the `try` swallows failures — with fewer than
three frames `self.session.unpack(msg[2])` raises before the cache is
touched); then queue the message when the connection is not ready, else
forward it to the kernel channel. -/
def ClientState.handleIncomingMessage (s : ClientState) (channel_name : String)
    (msg : Envelope) : Option ClientState :=
  if msg.nframes = 0 then some s
  else
    let s1 :=
      if 3 ≤ msg.nframes then
        { s with message_cache :=
            (s.message_cache.tryPut msg.msg_id
              { msg_id := some msg.msg_id, channel := some channel_name,
                cell_id := msg.cell_id }).1 }
      else s
    match s1.queueMessageIfNotReady channel_name msg with
    | none => none
    | some (s2, true) => some s2
    | some (s2, false) => some (s2.sendMessage channel_name msg)

/-- `_update_execution_state_from_status`: only `status` messages on the
`iopub` channel are considered; a truthy parent message id is resolved
through the message cache (`self.message_cache[parent_msg_id]`, a read
that promotes the entry); a shell-channel parent updates the shell
timestamp, `last_activity` and — when the status carries a truthy
execution state — `execution_state`; a control-channel parent updates only
the control timestamp; a parent that is missing or not cached changes
nothing (the source only logs). -/
def ClientState.updateExecutionStateFromStatus (s : ClientState)
    (channel_name : String) (msg_type : Option String)
    (parent_msg_id : Option String) (exec_state : Option String)
    (now : Nat) : ClientState :=
  if channel_name ≠ "iopub" ∨ msg_type ≠ some "status" then s
  else
    match parent_msg_id with
    | some pid =>
        if pid = "" then s
        else
          match s.message_cache.getitem pid with
          | some (cached, cache1) =>
              let base := { s with message_cache := cache1 }
              if cached.channel = "shell" then
                let base1 := { base with last_shell_status_time := some now,
                                         last_activity := some now }
                match exec_state with
                | some es =>
                    if es = "" then base1
                    else { base1 with execution_state := es }
                | none => base1
              else if cached.channel = "control" then
                { base with last_control_status_time := some now }
              else base
          | none => s
    | none => s

/-- One received message inside `_monitor_channel_messages`: update the
execution state from a possible status message, then route the frames to
the listeners.  The returned list is the set of listeners invoked for the
message — always all of them. -/
def ClientState.monitorProcessMessage (s : ClientState) (channel_name : String)
    (msg_type parent_msg_id exec_state : Option String) (now : Nat) :
    ClientState × List String :=
  let s1 := s.updateExecutionStateFromStatus channel_name msg_type
              parent_msg_id exec_state now
  (s1, s1.listeners)

/-- The environment a `connect()` call runs against: whether
`start_channels` raises, the value of the `channels_running` assertion,
the first heartbeat poll at which `hb_channel.is_beating()` is true
(`none` = never within the call), the result of
`_test_kernel_communication` (that coroutine catches its own errors,
retries internally and returns a Bool — its kernel-info sends and their
cache insertions are not needed by any claim and are abstracted here), and
the outcome of the in-progress attempt awaited by
`wait_for_connection_ready`. -/
structure ConnectEnv where
  start_channels_ok : Bool
  channels_running : Bool
  hb_first_beat : Option Nat
  comm_test_ok : Bool
  wait_outcome : Bool
deriving Repr, DecidableEq

/-- The observable outcome of one `connect()` call: the client state
afterwards, the returned Bool, whether an exception escaped the call, and
how many times the channel-opening sequence was started. -/
structure ConnectResult where
  state : ClientState
  returned : Bool
  raised : Bool
  start_channel_calls : Nat
deriving Repr, DecidableEq

/-- `connect()`: an in-progress attempt is awaited instead of repeated; an
already-ready client returns `True`; otherwise the connect sequence runs —
set `_connecting`, mark the execution state busy, start channels, assert
`channels_running`, start listening, wait for the heartbeat for at most
`max_attempts = 10` extra polls, run the communication test, then mark the
connection ready and settle the execution state.  Every exception inside
the sequence is caught by the blanket `except Exception`, which clears
`_connecting` and returns `False`; the communication-test failure path
instead hits the bare `return False` inside the `try`, which leaves
`_connecting` set. -/
def ClientState.connect (s : ClientState) (env : ConnectEnv) (now : Nat) :
    ConnectResult :=
  if s.connecting then
    { state := s, returned := env.wait_outcome, raised := false,
      start_channel_calls := 0 }
  else if s.connection_ready then
    { state := s, returned := true, raised := false, start_channel_calls := 0 }
  else
    let s1 := { s with connecting := true, execution_state := "busy",
                       last_activity := some now }
    if ¬env.start_channels_ok then
      { state := { s1 with connecting := false }, returned := false,
        raised := false, start_channel_calls := 1 }
    else
      let s2 := { s1 with channels_started := true }
      if ¬env.channels_running then
        -- `assert self.channels_running` raises `AssertionError`, a
        -- subclass of `Exception`, so the blanket handler catches it too
        { state := { s2 with connecting := false }, returned := false,
          raised := false, start_channel_calls := 1 }
      else
        let s3 := { s2 with listening := true }
        let hbOk :=
          match env.hb_first_beat with
          | some k => decide (k ≤ 10)
          | none => false
        if !hbOk then
          { state := { s3 with connecting := false }, returned := false,
            raised := false, start_channel_calls := 1 }
        else if ¬env.comm_test_ok then
          { state := s3, returned := false, raised := false,
            start_channel_calls := 1 }
        else
          let s4 := s3.markConnectionReady
          let s5 :=
            if s4.execution_state = "busy" then
              { s4 with execution_state := "idle", last_activity := some now }
            else s4
          { state := s5, returned := true, raised := false,
            start_channel_calls := 1 }

/-! ### KernelManagerStateMixin — services/kernels/state_mixin.py -/

/-- `LifecycleState` of `state_mixin.py`. -/
inductive LifecycleState
  | unknown
  | starting
  | started
  | restarting
  | terminating
  | dead
deriving Repr, DecidableEq

/-- `state_transition(start_state, end_state)` applied to a kernel-manager
method `op`: set the transitional state on the manager, run the method on
that manager, set the end state on success and return the result, and on
any exception set `unknown` and re-raise.  `σ` is the rest of the
manager's state, `α` the method's return value, `ε` the exception type;
`op` is a pure transformer of the non-lifecycle state that observes the
lifecycle field it is given. -/
def stateTransition {σ α ε : Type} (startState endState : LifecycleState)
    (op : LifecycleState × σ → Except ε (σ × α))
    (m : LifecycleState × σ) : (LifecycleState × σ) × Except ε α :=
  match op (startState, m.2) with
  | .ok (s1, a) => ((endState, s1), .ok a)
  | .error e => ((LifecycleState.unknown, m.2), .error e)

/-- `start_kernel` as wrapped by `__init_subclass__`:
`state_transition(STARTING, STARTED)`. -/
def start_kernel {σ α ε : Type} (op : LifecycleState × σ → Except ε (σ × α))
    (m : LifecycleState × σ) : (LifecycleState × σ) × Except ε α :=
  stateTransition .starting .started op m

/-- `restart_kernel` as wrapped by `__init_subclass__`:
`state_transition(RESTARTING, STARTED)`. -/
def restart_kernel {σ α ε : Type} (op : LifecycleState × σ → Except ε (σ × α))
    (m : LifecycleState × σ) : (LifecycleState × σ) × Except ε α :=
  stateTransition .restarting .started op m

/-- `shutdown_kernel` as wrapped by `__init_subclass__`:
`state_transition(TERMINATING, DEAD)`. -/
def shutdown_kernel {σ α ε : Type} (op : LifecycleState × σ → Except ε (σ × α))
    (m : LifecycleState × σ) : (LifecycleState × σ) × Except ε α :=
  stateTransition .terminating .dead op m

/-! ### Further association-list lemmas -/

theorem alistInsert_of_lookup_none {α : Type} (l : List (String × α))
    (k : String) (v : α) (h : alistLookup l k = none) :
    alistInsert l k v = l ++ [(k, v)] := by
  induction l with
  | nil => rfl
  | cons hd tl ih =>
      simp only [alistLookup] at h
      by_cases hh : hd.1 = k
      · simp [hh] at h
      · simp only [alistInsert, if_neg hh, List.cons_append, List.cons.injEq,
          true_and]
        exact ih (by simpa [hh] using h)

theorem alistKeys_alistInsert_of_isSome {α : Type} (l : List (String × α))
    (k : String) (v : α) (h : (alistLookup l k).isSome = true) :
    alistKeys (alistInsert l k v) = alistKeys l := by
  induction l with
  | nil => simp [alistLookup] at h
  | cons hd tl ih =>
      by_cases hh : hd.1 = k
      · simp [alistInsert, hh, alistKeys]
      · simp only [alistLookup, if_neg hh] at h
        simp [alistInsert, hh, alistKeys, List.map_cons] at ih ⊢
        exact ih h

theorem alistInsert_length_of_isSome {α : Type} (l : List (String × α))
    (k : String) (v : α) (h : (alistLookup l k).isSome = true) :
    (alistInsert l k v).length = l.length := by
  have hk := alistKeys_alistInsert_of_isSome l k v h
  have h1 : (alistKeys (alistInsert l k v)).length = (alistKeys l).length := by
    rw [hk]
  simpa [alistKeys] using h1

theorem alistErase_length_of_mem {α : Type} (l : List (String × α))
    (k : String) (v : α) (h : alistLookup l k = some v) :
    (alistErase l k).length + 1 = l.length := by
  induction l with
  | nil => simp [alistLookup] at h
  | cons hd tl ih =>
      by_cases hh : hd.1 = k
      · simp [alistErase, hh]
      · simp only [alistLookup, if_neg hh] at h
        simp only [alistErase, if_neg hh, List.length_cons]
        rw [← ih h]

theorem alistLookup_isSome_of_insert {α : Type} (l : List (String × α))
    (k : String) (v : α) :
    ((alistLookup (alistInsert l k v) k).isSome) = true := by
  rw [alistLookup_alistInsert_self]; rfl

theorem alistInsert_length_le {α : Type} (l : List (String × α))
    (k : String) (v : α) : (alistInsert l k v).length ≤ l.length + 1 := by
  induction l with
  | nil => simp [alistInsert]
  | cons hd tl ih =>
      by_cases hh : hd.1 = k
      · simp [alistInsert, hh]
      · simp only [alistInsert, if_neg hh, List.length_cons]
        omega

/-! ### Claim theorems -/

/-- C1: the claim describes filtered fan-out (callback invoked iff the
`(message_type, channel)` pair matches the subscriber's inclusion or
exclusion filter), which the spec, the repository's tests
(`tests/test_pre_connection_listeners.py`) and the in-repo caller
`KernelClientWebsocketConnection.connect` all expect; but in
`services/kernels/client.py` `add_listener` stores a bare callback (it
accepts no filter, so the connection's `add_listener(..., msg_types=...)`
call raises `TypeError`) and `_route_to_listeners` invokes every
registered listener for every message.  Evaluation at the failing input: a
subscriber whose spec-level exclusion filter rejects `("status", "iopub")`
is invoked for that pair anyway. -/
theorem c1_unfiltered_routing_code_bug :
    routeToListeners ["wsA", "wsB"] "iopub" "status" = ["wsA", "wsB"] ∧
    specListenerMatches none (some [("status", "iopub")]) ("status", "iopub")
      = false ∧
    ((ClientState.init.addListener "wsA").addListener "wsB").listeners
      = ["wsA", "wsB"] := by
  refine ⟨rfl, by decide, by decide⟩

/-- The cache after `put a {channel: iopub, cell_id: u1}` and then
`put b {channel: iopub, cell_id: u1}` into an empty cache bounded at 10. -/
def c2Cache : KernelMessageCache :=
  match (KernelMessageCache.empty 10).setitem "a"
      { msg_id := some "a", channel := some "iopub", cell_id := some "u1" } with
  | .ok c1 =>
      match c1.setitem "b"
          { msg_id := some "b", channel := some "iopub", cell_id := some "u1" } with
      | .ok c2 => c2
      | .error _ => KernelMessageCache.empty 0
  | .error _ => KernelMessageCache.empty 0

/-- C2 counterexample: two puts that reuse unit-of-work id `u1` on the
`iopub` channel.  The claim says the old message id `a` is evicted
"regardless of the channel of either entry", but the eviction in
`__setitem__` is guarded by `value["channel"] == "shell"`, so `a` is still
cached after `b` is inserted (while `get` by the unit of work does return
the new entry). -/
theorem c2_counterexample :
    c2Cache.contains "a" = true ∧
    (c2Cache.get none (some "u1")).1 =
      some { msg_id := "b", channel := "iopub", cell_id := some "u1" } := by
  decide



theorem evictCellCollision_not_shell (c : KernelMessageCache) (k : String)
    (e : Entry) (h : e.channel ≠ "shell") :
    c.evictCellCollision k e = .ok c := by
  unfold KernelMessageCache.evictCellCollision
  rw [if_neg h]

theorem evictCellCollision_shell_hit (c : KernelMessageCache) (k u : String)
    (e : Entry) (old : Entry) (hch : e.channel = "shell")
    (hcid : e.cell_id = some u)
    (hcell : alistLookup c.by_cell_id u = some old)
    (hdiff : k ≠ old.msg_id)
    (hlive : (alistLookup c.by_msg_id old.msg_id).isSome = true) :
    c.evictCellCollision k e =
      .ok { c with by_msg_id := alistErase c.by_msg_id old.msg_id } := by
  unfold KernelMessageCache.evictCellCollision
  rw [if_pos hch, hcid]
  dsimp only
  rw [hcell]
  dsimp only
  rw [if_pos hdiff, hlive]
  simp only [reduceIte]

theorem insertAndTrim_no_overflow (c : KernelMessageCache) (k : String)
    (e : Entry)
    (h : ¬ (c.maxsize < (alistInsert c.by_msg_id k e).length)) :
    c.insertAndTrim k e =
      { by_msg_id := alistInsert c.by_msg_id k e
        by_cell_id :=
          match e.cell_id with
          | some u => alistInsert c.by_cell_id u e
          | none => c.by_cell_id
        maxsize := c.maxsize } := by
  unfold KernelMessageCache.insertAndTrim
  cases hcid : e.cell_id with
  | some u => simp only [hcid, if_neg h]
  | none => simp only [hcid, if_neg h]

theorem removeOldest_by_msg_id (c : KernelMessageCache) :
    (c.removeOldest).by_msg_id = c.by_msg_id.tail := by
  unfold KernelMessageCache.removeOldest
  split
  next heq => rw [heq]; rfl
  next a item rest heq => rw [heq]; rfl

theorem removeOldest_maxsize (c : KernelMessageCache) :
    (c.removeOldest).maxsize = c.maxsize := by
  unfold KernelMessageCache.removeOldest
  split
  next heq => rfl
  next a item rest heq => rfl

theorem alistErase_length_le {α : Type} (l : List (String × α)) (k : String) :
    (alistErase l k).length ≤ l.length := by
  induction l with
  | nil => simp [alistErase]
  | cons hd tl ih =>
      by_cases hh : hd.1 = k
      · simp only [alistErase, if_pos hh, List.length_cons]
        omega
      · simp only [alistErase, if_neg hh, List.length_cons]
        omega

theorem evictCellCollision_cell_none (c : KernelMessageCache) (k : String)
    (e : Entry) (h : e.cell_id = none) :
    c.evictCellCollision k e = .ok c := by
  unfold KernelMessageCache.evictCellCollision
  split
  · rw [h]
  · rfl

theorem evictCellCollision_ok_facts {c : KernelMessageCache} {k : String}
    {e : Entry} {c1 : KernelMessageCache}
    (h : c.evictCellCollision k e = .ok c1) :
    c1.maxsize = c.maxsize ∧ c1.by_cell_id = c.by_cell_id ∧
      c1.by_msg_id.length ≤ c.by_msg_id.length := by
  unfold KernelMessageCache.evictCellCollision at h
  split at h
  · split at h
    · split at h
      · split at h
        · split at h
          · injection h with h1
            subst h1
            exact ⟨rfl, rfl, alistErase_length_le _ _⟩
          · exact Except.noConfusion h
        · injection h with h1; subst h1; exact ⟨rfl, rfl, le_refl _⟩
      · injection h with h1; subst h1; exact ⟨rfl, rfl, le_refl _⟩
    · injection h with h1; subst h1; exact ⟨rfl, rfl, le_refl _⟩
  · injection h with h1; subst h1; exact ⟨rfl, rfl, le_refl _⟩

theorem insertAndTrim_sizes (c : KernelMessageCache) (k : String) (e : Entry) :
    (c.insertAndTrim k e).maxsize = c.maxsize ∧
    (c.by_msg_id.length ≤ c.maxsize →
      (c.insertAndTrim k e).by_msg_id.length ≤ c.maxsize) := by
  have hins := alistInsert_length_le c.by_msg_id k e
  unfold KernelMessageCache.insertAndTrim
  cases hcid : e.cell_id with
  | some u =>
      simp only [hcid]
      split
      · refine ⟨removeOldest_maxsize _, fun hb => ?_⟩
        rw [removeOldest_by_msg_id]
        dsimp only
        simp only [List.length_tail]
        omega
      · next hno =>
          refine ⟨rfl, fun _ => ?_⟩
          dsimp only
          omega
  | none =>
      simp only [hcid]
      split
      · refine ⟨removeOldest_maxsize _, fun hb => ?_⟩
        rw [removeOldest_by_msg_id]
        dsimp only
        simp only [List.length_tail]
        omega
      · next hno =>
          refine ⟨rfl, fun _ => ?_⟩
          dsimp only
          omega

theorem setitem_ok_sizes {c : KernelMessageCache} {k : String} {v : RawMsg}
    {c1 : KernelMessageCache} (h : c.setitem k v = .ok c1) :
    c1.maxsize = c.maxsize ∧
    (c.by_msg_id.length ≤ c.maxsize → c1.by_msg_id.length ≤ c.maxsize) := by
  simp only [KernelMessageCache.setitem] at h
  split at h
  · exact Except.noConfusion h
  split at h
  · exact Except.noConfusion h
  split at h
  · exact Except.noConfusion h
  split at h
  · exact Except.noConfusion h
  next cmid heq =>
    injection h with h1
    subst h1
    obtain ⟨hm, _, hl⟩ := evictCellCollision_ok_facts heq
    obtain ⟨hs1, hs2⟩ := insertAndTrim_sizes cmid k _
    refine ⟨hs1.trans hm, fun hb => ?_⟩
    have := hs2 (by omega)
    omega

theorem alistMoveToEnd_length {α : Type} (l : List (String × α)) (k : String) :
    (alistMoveToEnd l k).length = l.length := by
  unfold alistMoveToEnd
  cases h : alistLookup l k with
  | some v =>
      have := alistErase_length_of_mem l k v h
      simp only [List.length_append, List.length_singleton]
      omega
  | none => rfl

theorem getByMsgId_snd_length (c : KernelMessageCache) (mid : Option String) :
    ((c.getByMsgId mid).2).by_msg_id.length = c.by_msg_id.length := by
  unfold KernelMessageCache.getByMsgId
  split
  · split
    · dsimp only
      rw [alistMoveToEnd_length]
    · rfl
  · rfl

theorem get_snd_length (c : KernelMessageCache) (mid cid : Option String) :
    ((c.get mid cid).2).by_msg_id.length = c.by_msg_id.length := by
  unfold KernelMessageCache.get
  split
  · split
    · split
      · dsimp only
        rw [alistMoveToEnd_length]
      · rw [getByMsgId_snd_length]
    · rw [getByMsgId_snd_length]
  · rw [getByMsgId_snd_length]

theorem insertAndTrim_by_msg_fresh (c : KernelMessageCache) (k : String)
    (e : Entry) (hfresh : alistLookup c.by_msg_id k = none)
    (hroom : c.by_msg_id.length < c.maxsize) :
    (c.insertAndTrim k e).by_msg_id = c.by_msg_id ++ [(k, e)] := by
  have happ := alistInsert_of_lookup_none c.by_msg_id k e hfresh
  have hno : ¬ (c.maxsize < (alistInsert c.by_msg_id k e).length) := by
    rw [happ]
    simp only [List.length_append, List.length_singleton]
    omega
  unfold KernelMessageCache.insertAndTrim
  cases hcid : e.cell_id with
  | some u =>
      simp only [hcid]
      rw [if_neg hno]
      exact happ
  | none =>
      simp only [hcid]
      rw [if_neg hno]
      exact happ

theorem insertAndTrim_by_msg_update (c : KernelMessageCache) (k : String)
    (e : Entry) (hmem : (alistLookup c.by_msg_id k).isSome = true)
    (hbound : c.by_msg_id.length ≤ c.maxsize) :
    (c.insertAndTrim k e).by_msg_id = alistInsert c.by_msg_id k e := by
  have hlen := alistInsert_length_of_isSome c.by_msg_id k e hmem
  have hno : ¬ (c.maxsize < (alistInsert c.by_msg_id k e).length) := by omega
  unfold KernelMessageCache.insertAndTrim
  cases hcid : e.cell_id with
  | some u =>
      simp only [hcid]
      rw [if_neg hno]
  | none =>
      simp only [hcid]
      rw [if_neg hno]

theorem insertAndTrim_by_msg_evict (c : KernelMessageCache) (k : String)
    (e : Entry) (hfresh : alistLookup c.by_msg_id k = none)
    (hfull : c.by_msg_id.length = c.maxsize) :
    (c.insertAndTrim k e).by_msg_id = (c.by_msg_id ++ [(k, e)]).tail := by
  have happ := alistInsert_of_lookup_none c.by_msg_id k e hfresh
  have hyes : c.maxsize < (alistInsert c.by_msg_id k e).length := by
    rw [happ]
    simp only [List.length_append, List.length_singleton]
    omega
  unfold KernelMessageCache.insertAndTrim
  cases hcid : e.cell_id with
  | some u =>
      simp only [hcid]
      rw [if_pos hyes, removeOldest_by_msg_id]
      dsimp only
      rw [happ]
  | none =>
      simp only [hcid]
      rw [if_pos hyes, removeOldest_by_msg_id]
      dsimp only
      rw [happ]

/-- C2 amended: on a put whose value carries a unit-of-work id already
mapped to a different live message id, `get` by that unit-of-work id
afterwards returns the new entry; but the old message id's entry is
removed if and only if the NEW entry's channel is `"shell"` — a non-shell
put leaves the old message id cached (the collision eviction is guarded by
`value["channel"] == "shell"`). -/
theorem c2_amended (c : KernelMessageCache) (k ch u : String) (old : Entry)
    (hnd : (alistKeys c.by_msg_id).Nodup)
    (hcell : alistLookup c.by_cell_id u = some old)
    (hdiff : k ≠ old.msg_id)
    (hlive : (alistLookup c.by_msg_id old.msg_id).isSome = true)
    (hroom : c.by_msg_id.length < c.maxsize) :
    ∃ c1, c.setitem k
        { msg_id := some k, channel := some ch, cell_id := some u } = .ok c1 ∧
      (c1.get none (some u)).1 =
        some { msg_id := k, channel := ch, cell_id := some u } ∧
      c1.contains old.msg_id = decide (ch ≠ "shell") := by
  obtain ⟨v0, hv0⟩ := Option.isSome_iff_exists.mp hlive
  have hkk : ¬ (k ≠ k) := fun h => h rfl
  by_cases hch : ch = "shell"
  · refine ⟨⟨alistInsert (alistErase c.by_msg_id old.msg_id) k ⟨k, ch, some u⟩,
      alistInsert c.by_cell_id u ⟨k, ch, some u⟩, c.maxsize⟩, ?_, ?_, ?_⟩
    · have h2 := alistErase_length_of_mem c.by_msg_id old.msg_id v0 hv0
      have hno : ¬ (c.maxsize <
          (alistInsert (alistErase c.by_msg_id old.msg_id) k
            (⟨k, ch, some u⟩ : Entry)).length) := by
        have h1 := alistInsert_length_le (alistErase c.by_msg_id old.msg_id) k
          (⟨k, ch, some u⟩ : Entry)
        omega
      dsimp only [KernelMessageCache.setitem]
      rw [if_neg hkk]
      rw [evictCellCollision_shell_hit c k u ⟨k, ch, some u⟩ old hch rfl
        hcell hdiff hlive]
      dsimp only
      rw [insertAndTrim_no_overflow _ _ _ hno]
    · dsimp only [KernelMessageCache.get]
      rw [alistLookup_alistInsert_self]
      try (dsimp only)
      rw [alistLookup_alistInsert_self]
      try (dsimp only)
      rfl
    · dsimp only [KernelMessageCache.contains]
      rw [alistLookup_alistInsert_ne _ _ _ _ hdiff,
        alistLookup_alistErase_self _ _ hnd]
      simp [hch]
  · refine ⟨⟨alistInsert c.by_msg_id k ⟨k, ch, some u⟩,
      alistInsert c.by_cell_id u ⟨k, ch, some u⟩, c.maxsize⟩, ?_, ?_, ?_⟩
    · have hno : ¬ (c.maxsize <
          (alistInsert c.by_msg_id k (⟨k, ch, some u⟩ : Entry)).length) := by
        have h1 := alistInsert_length_le c.by_msg_id k (⟨k, ch, some u⟩ : Entry)
        omega
      dsimp only [KernelMessageCache.setitem]
      rw [if_neg hkk]
      rw [evictCellCollision_not_shell c k ⟨k, ch, some u⟩ hch]
      dsimp only
      rw [insertAndTrim_no_overflow _ _ _ hno]
    · dsimp only [KernelMessageCache.get]
      rw [alistLookup_alistInsert_self]
      try (dsimp only)
      rw [alistLookup_alistInsert_self]
      try (dsimp only)
      rfl
    · dsimp only [KernelMessageCache.contains]
      rw [alistLookup_alistInsert_ne _ _ _ _ hdiff, hlive]
      simp [hch]

/-- Witness for `c2_amended`: a concrete cache holding one shell entry `a`
under unit of work `u1`, and a non-shell put of `b` with the same unit of
work. -/
theorem c2_amended_witness :
    ∃ c1, (⟨[("a", ⟨"a", "shell", some "u1"⟩)],
        [("u1", ⟨"a", "shell", some "u1"⟩)], 10⟩ :
        KernelMessageCache).setitem "b"
        { msg_id := some "b", channel := some "iopub", cell_id := some "u1" }
        = .ok c1 ∧
      (c1.get none (some "u1")).1 =
        some { msg_id := "b", channel := "iopub", cell_id := some "u1" } ∧
      c1.contains "a" = decide (("iopub" : String) ≠ "shell") :=
  c2_amended _ "b" "iopub" "u1" ⟨"a", "shell", some "u1"⟩ (by decide)
    (by decide) (by decide) (by decide) (by decide)

/-- Run one `put` and keep the new cache, for building concrete caches in
counterexamples (all the puts below succeed). -/
def putOk (c : KernelMessageCache) (k : String) (v : RawMsg) :
    KernelMessageCache :=
  match c.setitem k v with
  | .ok c1 => c1
  | .error _ => KernelMessageCache.empty 0

/-- The cache obtained from `maxsize = 2` by putting `a`, then `b`, then
`a` again (an update of an existing message id), then `c`. -/
def c3Cache : KernelMessageCache :=
  putOk (putOk (putOk (putOk (KernelMessageCache.empty 2)
    "a" { msg_id := some "a", channel := some "shell", cell_id := none })
    "b" { msg_id := some "b", channel := some "shell", cell_id := none })
    "a" { msg_id := some "a", channel := some "shell", cell_id := none })
    "c" { msg_id := some "c", channel := some "shell", cell_id := none }

/-- C3 counterexample: with `maxsize = 2`, put `a`, `b`, then `a` again,
then `c`.  Under the claim the second put of `a` promotes it to
most-recently-used, so inserting `c` should evict `b`; but
`self._by_msg_id[msg_id] = value` on an existing `OrderedDict` key keeps
its position, so `a` is still the oldest entry and is the one evicted. -/
theorem c3_counterexample :
    c3Cache.contains "a" = false ∧ c3Cache.contains "b" = true ∧
    c3Cache.by_msg_id.length = 2 := by
  decide

/-- C3 amended: the cache never holds more than `maxsize` entries and
`get` preserves the entry count; a read (`__getitem__`) promotes the
entry to most-recently-used; a put of a NEW message id inserts it as
most-recently-used; a put that updates an EXISTING message id keeps the
key order unchanged (it does not promote); when an insertion exceeds the
bound, the entry evicted is the head of the order — the
least-recently-used under these rules; and `_remove_oldest` on an empty
cache is a no-op rather than an error. -/
theorem c3_amended :
    (∀ (c : KernelMessageCache) (k : String) (v : RawMsg)
        (c1 : KernelMessageCache), c.setitem k v = .ok c1 →
      c.by_msg_id.length ≤ c.maxsize → c1.by_msg_id.length ≤ c1.maxsize) ∧
    (∀ (c : KernelMessageCache) (mid cid : Option String),
      ((c.get mid cid).2).by_msg_id.length = c.by_msg_id.length) ∧
    (∀ (c : KernelMessageCache) (m : String) (e : Entry)
        (c1 : KernelMessageCache), c.getitem m = some (e, c1) →
      alistKeys c1.by_msg_id = alistKeys (alistErase c.by_msg_id m) ++ [m]) ∧
    (∀ (c : KernelMessageCache) (k ch : String) (c1 : KernelMessageCache),
      alistLookup c.by_msg_id k = none →
      c.by_msg_id.length < c.maxsize →
      c.setitem k { msg_id := some k, channel := some ch, cell_id := none }
        = .ok c1 →
      alistKeys c1.by_msg_id = alistKeys c.by_msg_id ++ [k]) ∧
    (∀ (c : KernelMessageCache) (k ch : String) (c1 : KernelMessageCache),
      (alistLookup c.by_msg_id k).isSome = true →
      c.by_msg_id.length ≤ c.maxsize →
      c.setitem k { msg_id := some k, channel := some ch, cell_id := none }
        = .ok c1 →
      alistKeys c1.by_msg_id = alistKeys c.by_msg_id) ∧
    (∀ (c : KernelMessageCache) (k ch : String) (c1 : KernelMessageCache),
      alistLookup c.by_msg_id k = none →
      c.by_msg_id.length = c.maxsize → 0 < c.maxsize →
      c.setitem k { msg_id := some k, channel := some ch, cell_id := none }
        = .ok c1 →
      alistKeys c1.by_msg_id = (alistKeys c.by_msg_id).tail ++ [k]) ∧
    (∀ m : Nat, (KernelMessageCache.empty m).removeOldest
      = KernelMessageCache.empty m) := by
  refine ⟨?_, ?_, ?_, ?_, ?_, ?_, ?_⟩
  · intro c k v c1 h hb
    obtain ⟨hm, hl⟩ := setitem_ok_sizes h
    rw [hm]
    exact hl hb
  · intro c mid cid
    exact get_snd_length c mid cid
  · intro c m e c1 h
    unfold KernelMessageCache.getitem at h
    split at h
    next out hlook =>
      injection h with h1
      injection h1 with he hc
      subst hc
      dsimp only
      unfold alistMoveToEnd
      rw [hlook]
      simp [alistKeys]
    next => exact Option.noConfusion h
  · intro c k ch c1 hfresh hroom h
    have hkk : ¬ (k ≠ k) := fun hx => hx rfl
    dsimp only [KernelMessageCache.setitem] at h
    rw [if_neg hkk, evictCellCollision_cell_none c k _ rfl] at h
    dsimp only at h
    injection h with h1
    subst h1
    rw [insertAndTrim_by_msg_fresh c k _ hfresh hroom]
    simp [alistKeys]
  · intro c k ch c1 hmem hbound h
    have hkk : ¬ (k ≠ k) := fun hx => hx rfl
    dsimp only [KernelMessageCache.setitem] at h
    rw [if_neg hkk, evictCellCollision_cell_none c k _ rfl] at h
    dsimp only at h
    injection h with h1
    subst h1
    rw [insertAndTrim_by_msg_update c k _ hmem hbound]
    exact alistKeys_alistInsert_of_isSome c.by_msg_id k _ hmem
  · intro c k ch c1 hfresh hfull hpos h
    have hkk : ¬ (k ≠ k) := fun hx => hx rfl
    dsimp only [KernelMessageCache.setitem] at h
    rw [if_neg hkk, evictCellCollision_cell_none c k _ rfl] at h
    dsimp only at h
    injection h with h1
    subst h1
    rw [insertAndTrim_by_msg_evict c k _ hfresh hfull]
    cases hbm : c.by_msg_id with
    | nil =>
        rw [hbm] at hfull
        simp only [List.length_nil] at hfull
        omega
    | cons hd tl =>
        simp [alistKeys]
  · intro m
    rfl

/-- Witness for `c3_amended`: a fresh put into an empty 2-bounded cache
lands at the most-recently-used end; a fresh put into a full 2-bounded
cache evicts exactly the head entry; `_remove_oldest` of an empty cache is
the empty cache. -/
theorem c3_amended_witness :
    (alistKeys ((⟨[("a", ⟨"a", "shell", none⟩)], [], 2⟩ :
        KernelMessageCache)).by_msg_id
      = alistKeys (KernelMessageCache.empty 2).by_msg_id ++ ["a"]) ∧
    (alistKeys ((⟨[("b", ⟨"b", "shell", none⟩), ("c", ⟨"c", "shell", none⟩)],
        [], 2⟩ : KernelMessageCache)).by_msg_id
      = (alistKeys ((⟨[("a", ⟨"a", "shell", none⟩),
          ("b", ⟨"b", "shell", none⟩)], [], 2⟩ :
          KernelMessageCache)).by_msg_id).tail ++ ["c"]) ∧
    ((KernelMessageCache.empty 5).removeOldest = KernelMessageCache.empty 5) :=
  ⟨c3_amended.2.2.2.1 (KernelMessageCache.empty 2) "a" "shell"
      ⟨[("a", ⟨"a", "shell", none⟩)], [], 2⟩ (by decide) (by decide)
      (by decide),
   c3_amended.2.2.2.2.2.1
      ⟨[("a", ⟨"a", "shell", none⟩), ("b", ⟨"b", "shell", none⟩)], [], 2⟩
      "c" "shell"
      ⟨[("b", ⟨"b", "shell", none⟩), ("c", ⟨"c", "shell", none⟩)], [], 2⟩
      (by decide) (by decide) (by decide) (by decide),
   c3_amended.2.2.2.2.2.2 5⟩


/-- C4: a put whose value is missing the `msg_id` field, missing the
`channel` field, or whose declared `msg_id` differs from the key raises
the corresponding validation exception, the exception reaches the caller,
and the caller's cache is exactly as it was before the call (every
mutation in `__setitem__` comes after the three validation checks). -/
theorem c4_put_validation (c : KernelMessageCache) (k : String) (v : RawMsg) :
    (v.msg_id = none → c.tryPut k v = (c, some .missingMsgId)) ∧
    (∀ i, v.msg_id = some i → v.channel = none →
      c.tryPut k v = (c, some .missingChannel)) ∧
    (∀ i ch, v.msg_id = some i → v.channel = some ch → i ≠ k →
      c.tryPut k v = (c, some .invalidKey)) := by
  refine ⟨?_, ?_, ?_⟩
  · intro h
    simp only [KernelMessageCache.tryPut, KernelMessageCache.setitem, h]
  · intro i h1 h2
    simp only [KernelMessageCache.tryPut, KernelMessageCache.setitem, h1, h2]
  · intro i ch h1 h2 h3
    simp only [KernelMessageCache.tryPut, KernelMessageCache.setitem, h1, h2]
    rw [if_pos h3]

/-- Witness for `c4_put_validation`: the three invalid puts on a concrete
empty cache, each returning its error with the cache unchanged. -/
theorem c4_put_validation_witness :
    ((KernelMessageCache.empty 3).tryPut "x"
      ⟨none, some "shell", none⟩ =
      (KernelMessageCache.empty 3, some .missingMsgId)) ∧
    ((KernelMessageCache.empty 3).tryPut "x"
      ⟨some "x", none, none⟩ =
      (KernelMessageCache.empty 3, some .missingChannel)) ∧
    ((KernelMessageCache.empty 3).tryPut "x"
      ⟨some "y", some "shell", none⟩ =
      (KernelMessageCache.empty 3, some .invalidKey)) :=
  ⟨(c4_put_validation (KernelMessageCache.empty 3) "x"
      ⟨none, some "shell", none⟩).1 rfl,
   (c4_put_validation (KernelMessageCache.empty 3) "x"
      ⟨some "x", none, none⟩).2.1 "x" rfl rfl,
   (c4_put_validation (KernelMessageCache.empty 3) "x"
      ⟨some "y", some "shell", none⟩).2.2 "y" "shell" rfl rfl (by decide)⟩

theorem getitem_of_lookup (c : KernelMessageCache) (m : String) (e : Entry)
    (h : alistLookup c.by_msg_id m = some e) :
    c.getitem m = some (e, { c with by_msg_id := alistMoveToEnd c.by_msg_id m }) := by
  unfold KernelMessageCache.getitem
  rw [h]

theorem getitem_of_lookup_none (c : KernelMessageCache) (m : String)
    (h : alistLookup c.by_msg_id m = none) : c.getitem m = none := by
  unfold KernelMessageCache.getitem
  rw [h]

theorem getitem_some_lookup {c : KernelMessageCache} {m : String} {e : Entry}
    {c1 : KernelMessageCache} (h : c.getitem m = some (e, c1)) :
    alistLookup c.by_msg_id m = some e := by
  unfold KernelMessageCache.getitem at h
  split at h
  next out hlook =>
    injection h with h1
    injection h1 with he hc
    rw [hlook, he]
  next => exact Option.noConfusion h

/-- C5: for a status message on the broadcast (`iopub`) channel, the
execution state changes only when the parent message id is cached with
originating channel `"shell"`; a status whose cached parent channel is
`"control"` updates only the last-seen control timestamp (execution
state, shell timestamp and `last_activity` are untouched) and is still
dispatched to every listener; a status whose parent is not in the cache
changes nothing and is still dispatched to every listener. -/
theorem c5_status_frame :
    (∀ (s : ClientState) (ch : String) (mt pid es : Option String) (now : Nat),
      (s.monitorProcessMessage ch mt pid es now).1.execution_state ≠
        s.execution_state →
      ch = "iopub" ∧ mt = some "status" ∧
        ∃ p e, pid = some p ∧ p ≠ "" ∧
          alistLookup s.message_cache.by_msg_id p = some e ∧
          e.channel = "shell") ∧
    (∀ (s : ClientState) (p : String) (e : Entry) (es : Option String)
        (now : Nat),
      p ≠ "" →
      alistLookup s.message_cache.by_msg_id p = some e →
      e.channel = "control" →
      ((s.monitorProcessMessage "iopub" (some "status") (some p) es now).1.execution_state
          = s.execution_state ∧
       (s.monitorProcessMessage "iopub" (some "status") (some p) es now).1.last_control_status_time
          = some now ∧
       (s.monitorProcessMessage "iopub" (some "status") (some p) es now).1.last_shell_status_time
          = s.last_shell_status_time ∧
       (s.monitorProcessMessage "iopub" (some "status") (some p) es now).1.last_activity
          = s.last_activity ∧
       (s.monitorProcessMessage "iopub" (some "status") (some p) es now).2
          = s.listeners)) ∧
    (∀ (s : ClientState) (p : String) (es : Option String) (now : Nat),
      alistLookup s.message_cache.by_msg_id p = none →
      (s.monitorProcessMessage "iopub" (some "status") (some p) es now).1 = s ∧
      (s.monitorProcessMessage "iopub" (some "status") (some p) es now).2
        = s.listeners) := by
  refine ⟨?_, ?_, ?_⟩
  · intro s ch mt pid es now hne
    dsimp only [ClientState.monitorProcessMessage,
      ClientState.updateExecutionStateFromStatus] at hne
    split at hne
    · exact absurd rfl hne
    next hcond =>
      push_neg at hcond
      obtain ⟨hch, hmt⟩ := hcond
      refine ⟨hch, hmt, ?_⟩
      split at hne
      next p0 =>
        split at hne
        · exact absurd rfl hne
        next hp =>
          split at hne
          next cached cache1 hget =>
            have hlook := getitem_some_lookup hget
            split at hne
            next hshell =>
              exact ⟨p0, cached, rfl, hp, hlook, hshell⟩
            next hshell =>
              split at hne
              · exact absurd rfl hne
              · exact absurd rfl hne
          next => exact absurd rfl hne
      next => exact absurd rfl hne
  · intro s p e es now hp hlook hctrl
    have hnc : ¬(("iopub" : String) ≠ "iopub" ∨
        (some "status" : Option String) ≠ some "status") := by
      simp
    have hns : e.channel = "shell" → False := by
      intro hx
      rw [hctrl] at hx
      exact absurd hx (by decide)
    dsimp only [ClientState.monitorProcessMessage,
      ClientState.updateExecutionStateFromStatus]
    rw [if_neg hnc, if_neg hp, getitem_of_lookup s.message_cache p e hlook]
    dsimp only
    rw [if_neg hns, if_pos hctrl]
    exact ⟨rfl, rfl, rfl, rfl, rfl⟩
  · intro s p es now hlook
    have hnc : ¬(("iopub" : String) ≠ "iopub" ∨
        (some "status" : Option String) ≠ some "status") := by
      simp
    dsimp only [ClientState.monitorProcessMessage,
      ClientState.updateExecutionStateFromStatus]
    by_cases hp : p = ""
    · rw [if_neg hnc, if_pos hp]
      exact ⟨rfl, rfl⟩
    · rw [if_neg hnc, if_neg hp, getitem_of_lookup_none s.message_cache p hlook]
      exact ⟨rfl, rfl⟩

theorem queueMsg_ready (t : ClientState) (ch : String) (m : Envelope)
    (hr : t.connection_ready = true) :
    t.queueMessageIfNotReady ch m = some (t, false) := by
  unfold ClientState.queueMessageIfNotReady
  rw [hr]
  simp only [reduceIte]

theorem queueMsg_not_ready_room (t : ClientState) (ch : String) (m : Envelope)
    (hr : t.connection_ready = false)
    (hroom : t.queued_messages.length < t.max_queue_size) :
    t.queueMessageIfNotReady ch m =
      some ({ t with queued_messages := t.queued_messages ++ [(ch, m)] },
        true) := by
  unfold ClientState.queueMessageIfNotReady
  simp only [hr, Bool.false_eq_true, if_false]
  rw [if_pos hroom]

theorem queueMsg_not_ready_full (t : ClientState) (ch : String) (m : Envelope)
    (hr : t.connection_ready = false)
    (hfull : t.queued_messages.length = t.max_queue_size)
    (q0 : String × Envelope) (qrest : List (String × Envelope))
    (hq : t.queued_messages = q0 :: qrest) :
    t.queueMessageIfNotReady ch m =
      some ({ t with queued_messages := qrest ++ [(ch, m)] }, true) := by
  have hno : ¬ (t.queued_messages.length < t.max_queue_size) := by omega
  unfold ClientState.queueMessageIfNotReady
  simp only [hr, Bool.false_eq_true, if_false]
  rw [if_neg hno, hq]

theorem queueMsg_not_ready_empty_full (t : ClientState) (ch : String)
    (m : Envelope) (hr : t.connection_ready = false)
    (hfull : t.queued_messages.length = t.max_queue_size)
    (hq : t.queued_messages = []) :
    t.queueMessageIfNotReady ch m = none := by
  have hno : ¬ (t.queued_messages.length < t.max_queue_size) := by omega
  unfold ClientState.queueMessageIfNotReady
  simp only [hr, Bool.false_eq_true, if_false]
  rw [if_neg hno, hq]

/-- C6: a message arriving through `handle_incoming_message` while the
readiness flag is unset is appended to the pending queue; an arrival at
the bound drops the single oldest queued item before appending, keeping
the length at the bound; the queue never exceeds its bound; and
signalling readiness forwards all queued messages in their enqueue (FIFO)
order and empties the queue. -/
theorem c6_pending_queue :
    (∀ (s : ClientState) (ch : String) (m : Envelope) (s1 : ClientState),
      s.connection_ready = false → m.nframes ≠ 0 →
      s.queued_messages.length < s.max_queue_size →
      s.handleIncomingMessage ch m = some s1 →
      s1.queued_messages = s.queued_messages ++ [(ch, m)] ∧
      s1.sent = s.sent) ∧
    (∀ (s : ClientState) (ch : String) (m : Envelope) (s1 : ClientState),
      s.connection_ready = false → m.nframes ≠ 0 →
      s.queued_messages.length = s.max_queue_size →
      s.handleIncomingMessage ch m = some s1 →
      s1.queued_messages = s.queued_messages.tail ++ [(ch, m)] ∧
      s1.queued_messages.length = s.max_queue_size ∧
      s1.sent = s.sent) ∧
    (∀ (s : ClientState) (ch : String) (m : Envelope) (s1 : ClientState),
      s.queued_messages.length ≤ s.max_queue_size →
      s.handleIncomingMessage ch m = some s1 →
      s1.queued_messages.length ≤ s1.max_queue_size) ∧
    (∀ s : ClientState, s.connection_ready = false →
      (s.markConnectionReady).sent = s.sent ++ s.queued_messages ∧
      (s.markConnectionReady).queued_messages = []) := by
  have queueStep : ∀ (s : ClientState) (ch : String) (m : Envelope)
      (s1 : ClientState), m.nframes ≠ 0 →
      s.handleIncomingMessage ch m = some s1 →
      (s.connection_ready = true ∧
        s1.queued_messages = s.queued_messages ∧
        s1.max_queue_size = s.max_queue_size) ∨
      (s.connection_ready = false ∧
        s.queued_messages.length < s.max_queue_size ∧
        s1.queued_messages = s.queued_messages ++ [(ch, m)] ∧
        s1.max_queue_size = s.max_queue_size ∧ s1.sent = s.sent) ∨
      (s.connection_ready = false ∧
        ¬ s.queued_messages.length < s.max_queue_size ∧
        s1.queued_messages = s.queued_messages.tail ++ [(ch, m)] ∧
        s.queued_messages ≠ [] ∧
        s1.max_queue_size = s.max_queue_size ∧ s1.sent = s.sent) := by
    intro s ch m s1 hnf h
    simp only [ClientState.handleIncomingMessage] at h
    rw [if_neg hnf] at h
    by_cases h3 : 3 ≤ m.nframes
    case pos =>
      rw [if_pos h3] at h
      unfold ClientState.queueMessageIfNotReady at h
      dsimp only at h
      by_cases hr : s.connection_ready = true
      · rw [hr] at h
        simp only [reduceIte] at h
        try (dsimp only at h)
        injection h with h1
        subst h1
        exact Or.inl ⟨hr, rfl, rfl⟩
      · have hr0 : s.connection_ready = false := by
          cases hcr : s.connection_ready
          · rfl
          · exact absurd hcr hr
        rw [hr0] at h
        simp only [Bool.false_eq_true, if_false] at h
        by_cases hroom : s.queued_messages.length < s.max_queue_size
        · rw [if_pos hroom] at h
          try (dsimp only at h)
          injection h with h1
          subst h1
          exact Or.inr (Or.inl ⟨hr0, hroom, rfl, rfl, rfl⟩)
        · rw [if_neg hroom] at h
          cases hq : s.queued_messages with
          | nil =>
              rw [hq] at h
              exact Option.noConfusion h
          | cons q0 qrest =>
              rw [hq] at h hroom
              try (dsimp only at h)
              injection h with h1
              subst h1
              exact Or.inr (Or.inr ⟨hr0, hroom, rfl,
                (fun hx => List.noConfusion hx), rfl, rfl⟩)
    case neg =>
      rw [if_neg h3] at h
      unfold ClientState.queueMessageIfNotReady at h
      by_cases hr : s.connection_ready = true
      · rw [hr] at h
        simp only [reduceIte] at h
        try (dsimp only at h)
        injection h with h1
        subst h1
        exact Or.inl ⟨hr, rfl, rfl⟩
      · have hr0 : s.connection_ready = false := by
          cases hcr : s.connection_ready
          · rfl
          · exact absurd hcr hr
        rw [hr0] at h
        simp only [Bool.false_eq_true, if_false] at h
        by_cases hroom : s.queued_messages.length < s.max_queue_size
        · rw [if_pos hroom] at h
          try (dsimp only at h)
          injection h with h1
          subst h1
          exact Or.inr (Or.inl ⟨hr0, hroom, rfl, rfl, rfl⟩)
        · rw [if_neg hroom] at h
          cases hq : s.queued_messages with
          | nil =>
              rw [hq] at h
              exact Option.noConfusion h
          | cons q0 qrest =>
              rw [hq] at h hroom
              try (dsimp only at h)
              injection h with h1
              subst h1
              exact Or.inr (Or.inr ⟨hr0, hroom, rfl,
                (fun hx => List.noConfusion hx), rfl, rfl⟩)
  refine ⟨?_, ?_, ?_, ?_⟩
  · intro s ch m s1 hready hnf hroom h
    rcases queueStep s ch m s1 hnf h with h1 | h2 | h3
    · rw [hready] at h1
      exact absurd h1.1 (by simp)
    · exact ⟨h2.2.2.1, h2.2.2.2.2⟩
    · exact absurd hroom h3.2.1
  · intro s ch m s1 hready hnf hfull h
    rcases queueStep s ch m s1 hnf h with h1 | h2 | h3
    · rw [hready] at h1
      exact absurd h1.1 (by simp)
    · omega
    · refine ⟨h3.2.2.1, ?_, h3.2.2.2.2.2⟩
      rw [h3.2.2.1]
      cases hq : s.queued_messages with
      | nil => exact absurd hq h3.2.2.2.1
      | cons q0 qrest =>
          rw [hq] at hfull
          simp only [List.length_cons] at hfull
          simp only [hq, List.tail_cons, List.length_append,
            List.length_singleton]
          omega
  · intro s ch m s1 hbound h
    by_cases hnf : m.nframes = 0
    · simp only [ClientState.handleIncomingMessage] at h
      rw [if_pos hnf] at h
      injection h with h1
      subst h1
      exact hbound
    · rcases queueStep s ch m s1 hnf h with h1 | h2 | h3
      · rw [h1.2.1, h1.2.2]
        exact hbound
      · rw [h2.2.2.1, h2.2.2.2.1]
        simp only [List.length_append, List.length_singleton]
        omega
      · rw [h3.2.2.1, h3.2.2.2.2.1]
        cases hq : s.queued_messages with
        | nil => exact absurd hq h3.2.2.2.1
        | cons q0 qrest =>
            have := h3.2.1
            rw [hq] at this hbound
            simp only [List.length_cons] at hbound this
            simp only [hq, List.tail_cons, List.length_append,
              List.length_singleton]
            omega
  · intro s hready
    unfold ClientState.markConnectionReady ClientState.processQueuedMessages
    rw [hready]
    simp only [Bool.false_eq_true, if_false]
    exact ⟨trivial, trivial⟩

/-- C7: each wrapped lifecycle operation runs the underlying method on a
manager whose state is the transitional one (starting / restarting /
terminating); a normal return moves the state to the designated success
state (started / started / dead) and returns the result; an exception
moves the state to unknown and re-raises the same exception. -/
theorem c7_lifecycle_transitions :
    ∀ (σ α ε : Type) (op : LifecycleState × σ → Except ε (σ × α))
      (m : LifecycleState × σ),
      (∀ s1 a, op (.starting, m.2) = .ok (s1, a) →
        start_kernel op m = ((.started, s1), .ok a)) ∧
      (∀ e, op (.starting, m.2) = .error e →
        start_kernel op m = ((.unknown, m.2), .error e)) ∧
      (∀ s1 a, op (.restarting, m.2) = .ok (s1, a) →
        restart_kernel op m = ((.started, s1), .ok a)) ∧
      (∀ e, op (.restarting, m.2) = .error e →
        restart_kernel op m = ((.unknown, m.2), .error e)) ∧
      (∀ s1 a, op (.terminating, m.2) = .ok (s1, a) →
        shutdown_kernel op m = ((.dead, s1), .ok a)) ∧
      (∀ e, op (.terminating, m.2) = .error e →
        shutdown_kernel op m = ((.unknown, m.2), .error e)) := by
  intro σ α ε op m
  refine ⟨?_, ?_, ?_, ?_, ?_, ?_⟩
  · intro s1 a h
    unfold start_kernel stateTransition
    rw [h]
  · intro e h
    unfold start_kernel stateTransition
    rw [h]
  · intro s1 a h
    unfold restart_kernel stateTransition
    rw [h]
  · intro e h
    unfold restart_kernel stateTransition
    rw [h]
  · intro s1 a h
    unfold shutdown_kernel stateTransition
    rw [h]
  · intro e h
    unfold shutdown_kernel stateTransition
    rw [h]

/-- Witness for `c7_lifecycle_transitions`: a successful start, a
successful restart, and a failing shutdown at concrete managers. -/
theorem c7_lifecycle_transitions_witness :
    (start_kernel
        (fun p => (.ok (p.2 + 1, "went") : Except String (Nat × String)))
        (LifecycleState.unknown, 5)
      = ((LifecycleState.started, 6), .ok "went")) ∧
    (restart_kernel
        (fun p => (.ok (p.2 * 2, "again") : Except String (Nat × String)))
        (LifecycleState.started, 3)
      = ((LifecycleState.started, 6), .ok "again")) ∧
    (shutdown_kernel
        (fun _ => (.error "boom" : Except String (Nat × String)))
        (LifecycleState.started, 5)
      = ((LifecycleState.unknown, 5), .error "boom")) :=
  ⟨(c7_lifecycle_transitions Nat String String
      (fun p => .ok (p.2 + 1, "went")) (LifecycleState.unknown, 5)).1
      6 "went" rfl,
   (c7_lifecycle_transitions Nat String String
      (fun p => .ok (p.2 * 2, "again")) (LifecycleState.started, 3)).2.2.1
      6 "again" rfl,
   (c7_lifecycle_transitions Nat String String
      (fun _ => .error "boom") (LifecycleState.started, 5)).2.2.2.2.2
      "boom" rfl⟩

/-- C8: a `connect()` call made while a connection attempt is already in
progress starts no new attempt — the channel-opening sequence is not run,
the client state is untouched — and it returns the awaited outcome of the
in-progress attempt (the readiness event the first caller resolves), so
concurrent calls observe one shared outcome. -/
theorem c8_connect_awaits_in_progress :
    ∀ (s : ClientState) (env : ConnectEnv) (now : Nat),
      s.connecting = true →
      s.connect env now =
        { state := s, returned := env.wait_outcome, raised := false,
          start_channel_calls := 0 } := by
  intro s env now h
  unfold ClientState.connect
  rw [h]
  simp only [reduceIte]

/-- Witness for `c8_connect_awaits_in_progress` at a concrete connecting
client. -/
theorem c8_connect_awaits_in_progress_witness :
    ({ ClientState.init with connecting := true } : ClientState).connect
        ⟨true, true, some 0, true, true⟩ 9 =
      { state := { ClientState.init with connecting := true },
        returned := true, raised := false, start_channel_calls := 0 } :=
  c8_connect_awaits_in_progress
    { ClientState.init with connecting := true }
    ⟨true, true, some 0, true, true⟩ 9 rfl

/-- C9 counterexample: with channels starting, the heartbeat beating at
the first poll and the communication test failing, `connect()` returns
`False` (and raises nothing) but the `_connecting` flag is still set:
the `return False` on the communication-test path is inside the `try` and
skips the `except` clause that clears the flag, so a later `connect()`
only waits on the stale attempt instead of starting fresh. -/
theorem c9_counterexample :
    (ClientState.init.connect ⟨true, true, some 0, false, false⟩ 5).returned
      = false ∧
    (ClientState.init.connect
      ⟨true, true, some 0, false, false⟩ 5).state.connecting = true ∧
    (ClientState.init.connect ⟨true, true, some 0, false, false⟩ 5).raised
      = false := by
  decide

/-- C10: `mark_connection_ready` on a client whose readiness flag is
already set changes nothing at all — in particular the pending queue is
not drained again, so across one readiness transition queued messages are
forwarded at most once. -/
theorem c10_mark_ready_idempotent :
    ∀ s : ClientState, s.connection_ready = true →
      s.markConnectionReady = s := by
  intro s h
  unfold ClientState.markConnectionReady
  rw [h]
  simp only [reduceIte]

/-- Witness for `c10_mark_ready_idempotent` at a ready client that still
has a queued message: the call leaves the state, queue included,
untouched. -/
theorem c10_mark_ready_idempotent_witness :
    ({ ClientState.init with
        connection_ready := true
        queued_messages := [("shell", ⟨"m1", some "status", none, 4⟩)] } :
        ClientState).markConnectionReady =
      { ClientState.init with
        connection_ready := true
        queued_messages := [("shell", ⟨"m1", some "status", none, 4⟩)] } :=
  c10_mark_ready_idempotent
    { ClientState.init with
      connection_ready := true
      queued_messages := [("shell", ⟨"m1", some "status", none, 4⟩)] } rfl

/-- C9 amended: `connect()` never propagates an exception and every
internal failure returns `False`; the connecting flag is cleared on the
failure paths that raise internally (channel start failure, the
`channels_running` assertion, heartbeat never beating within the retry
bound) — but on a communication-test failure the flag remains set, so a
subsequent `connect()` cannot begin a fresh attempt. -/
theorem c9_amended :
    (∀ (s : ClientState) (env : ConnectEnv) (now : Nat),
      (s.connect env now).raised = false) ∧
    (∀ (s : ClientState) (env : ConnectEnv) (now : Nat),
      s.connecting = false → s.connection_ready = false →
      env.start_channels_ok = false →
      (s.connect env now).returned = false ∧
      (s.connect env now).state.connecting = false) ∧
    (∀ (s : ClientState) (env : ConnectEnv) (now : Nat),
      s.connecting = false → s.connection_ready = false →
      env.start_channels_ok = true → env.channels_running = false →
      (s.connect env now).returned = false ∧
      (s.connect env now).state.connecting = false) ∧
    (∀ (s : ClientState) (env : ConnectEnv) (now : Nat),
      s.connecting = false → s.connection_ready = false →
      env.start_channels_ok = true → env.channels_running = true →
      (∀ kk, env.hb_first_beat = some kk → 10 < kk) →
      (s.connect env now).returned = false ∧
      (s.connect env now).state.connecting = false) ∧
    (∀ (s : ClientState) (env : ConnectEnv) (now : Nat) (kk : Nat),
      s.connecting = false → s.connection_ready = false →
      env.start_channels_ok = true → env.channels_running = true →
      env.hb_first_beat = some kk → kk ≤ 10 →
      env.comm_test_ok = false →
      (s.connect env now).returned = false ∧
      (s.connect env now).state.connecting = true) := by
  refine ⟨?_, ?_, ?_, ?_, ?_⟩
  · intro s env now
    simp only [ClientState.connect]
    repeat' (first | rfl | split)
  · intro s env now hc hr hsc
    obtain ⟨sc, cr, hb, ct, wo⟩ := env
    dsimp only at hsc
    subst hsc
    constructor <;> simp [ClientState.connect, hc, hr]
  · intro s env now hc hr hsc hcr
    obtain ⟨sc, cr, hb, ct, wo⟩ := env
    dsimp only at hsc hcr
    subst hsc
    subst hcr
    constructor <;> simp [ClientState.connect, hc, hr]
  · intro s env now hc hr hsc hcr hhb
    obtain ⟨sc, cr, hb, ct, wo⟩ := env
    dsimp only at hsc hcr hhb
    subst hsc
    subst hcr
    cases hb with
    | none =>
        constructor <;> simp [ClientState.connect, hc, hr]
    | some kk =>
        have h10 : 10 < kk := hhb kk rfl
        constructor <;>
          simp [ClientState.connect, hc, hr,
            decide_eq_false (by omega : ¬ (kk ≤ 10))]
  · intro s env now kk hc hr hsc hcr hhb hkk hct
    obtain ⟨sc, cr, hb, ct, wo⟩ := env
    dsimp only at hsc hcr hhb hct
    subst hsc
    subst hcr
    subst hct
    subst hhb
    constructor <;>
      simp [ClientState.connect, hc, hr, decide_eq_true hkk]

def c5ShellState : ClientState :=
  { ClientState.init with
    message_cache := ⟨[("pa", ⟨"pa", "shell", none⟩)], [], 5⟩ }

def c5CtrlState : ClientState :=
  { ClientState.init with
    message_cache := ⟨[("pc", ⟨"pc", "control", none⟩)], [], 5⟩ }

/-- Witness for `c5_status_frame`: a shell-parent status that changes the
execution state, a control-parent status that only stamps the control
timestamp, and an unknown-parent status that changes nothing. -/
theorem c5_status_frame_witness :
    (("iopub" : String) = "iopub" ∧
      (some "status" : Option String) = some "status" ∧
      ∃ p e, (some "pa" : Option String) = some p ∧ p ≠ "" ∧
        alistLookup c5ShellState.message_cache.by_msg_id p = some e ∧
        e.channel = "shell") ∧
    ((c5CtrlState.monitorProcessMessage "iopub" (some "status") (some "pc")
        (some "busy") 7).1.execution_state = c5CtrlState.execution_state ∧
     (c5CtrlState.monitorProcessMessage "iopub" (some "status") (some "pc")
        (some "busy") 7).1.last_control_status_time = some 7 ∧
     (c5CtrlState.monitorProcessMessage "iopub" (some "status") (some "pc")
        (some "busy") 7).1.last_shell_status_time
        = c5CtrlState.last_shell_status_time ∧
     (c5CtrlState.monitorProcessMessage "iopub" (some "status") (some "pc")
        (some "busy") 7).1.last_activity = c5CtrlState.last_activity ∧
     (c5CtrlState.monitorProcessMessage "iopub" (some "status") (some "pc")
        (some "busy") 7).2 = c5CtrlState.listeners) ∧
    ((ClientState.init.monitorProcessMessage "iopub" (some "status")
        (some "nope") (some "idle") 3).1 = ClientState.init ∧
     (ClientState.init.monitorProcessMessage "iopub" (some "status")
        (some "nope") (some "idle") 3).2 = ClientState.init.listeners) :=
  ⟨c5_status_frame.1 c5ShellState "iopub" (some "status") (some "pa")
      (some "busy") 7 (by decide),
   c5_status_frame.2.1 c5CtrlState "pc" ⟨"pc", "control", none⟩
      (some "busy") 7 (by decide) (by decide) rfl,
   c5_status_frame.2.2 ClientState.init "nope" (some "idle") 3 (by decide)⟩

def c6Msg : Envelope := ⟨"m1", some "status", none, 4⟩

def c6After : ClientState :=
  { ClientState.init with
    queued_messages := [("iopub", c6Msg)]
    message_cache := ⟨[("m1", ⟨"m1", "iopub", none⟩)], [], 10000⟩ }

def c6Mid : ClientState :=
  { ClientState.init with queued_messages := [("iopub", c6Msg)] }

/-- Witness for `c6_pending_queue`: one concrete message queued before
readiness, then a readiness signal that forwards it. -/
theorem c6_pending_queue_witness :
    (c6After.queued_messages
        = ClientState.init.queued_messages ++ [("iopub", c6Msg)] ∧
      c6After.sent = ClientState.init.sent) ∧
    (c6Mid.markConnectionReady.sent = c6Mid.sent ++ c6Mid.queued_messages ∧
      c6Mid.markConnectionReady.queued_messages = []) :=
  ⟨c6_pending_queue.1 ClientState.init "iopub" c6Msg c6After rfl (by decide)
      (by decide) (by decide),
   c6_pending_queue.2.2.2 c6Mid rfl⟩

/-- Witness for `c9_amended`: a channel-start failure clears the flag; a
communication-test failure leaves it set. -/
theorem c9_amended_witness :
    ((ClientState.init.connect ⟨false, true, some 0, true, false⟩ 1).returned
        = false ∧
     (ClientState.init.connect
        ⟨false, true, some 0, true, false⟩ 1).state.connecting = false) ∧
    ((ClientState.init.connect ⟨true, true, some 3, false, true⟩ 5).returned
        = false ∧
     (ClientState.init.connect
        ⟨true, true, some 3, false, true⟩ 5).state.connecting = true) :=
  ⟨c9_amended.2.1 ClientState.init ⟨false, true, some 0, true, false⟩ 1
      rfl rfl rfl,
   c9_amended.2.2.2.2 ClientState.init ⟨true, true, some 3, false, true⟩ 5 3
      rfl rfl rfl rfl rfl (by decide) rfl⟩
